import Mathlib

/-!
Verification of the concealment and combat/health engines of the `monster`
text-adventure rules repository.  The Python sources `typeclasses/characters.py`
and `gamerules/hiding.py` are embedded shallowly: integers stay mathematical
integers (Python ints are unbounded), the mutable `db`/`ndb` attributes become
explicit record fields, outbound messages become explicit event lists, and each
random draw becomes an argument reduced into the draw's inclusive range, so that
universal quantification over those arguments ranges over every possible roll
outcome.  Fallible operations (Python exceptions) return `Except`.
-/

namespace Monster

/-- Outbound messages of the combat engine: `self.msg text` and
`self.location.msg_contents text (exclude self)` in `characters.py`. -/
inductive Event where
  | selfMsg (text : String)
  | roomMsgExcludingSelf (text : String)
deriving DecidableEq

/-- A character as the combat engine reads and mutates it: `self.key`,
`self.db.health` and the current location (`move_to` target), from
`typeclasses/characters.py`. -/
structure Character where
  key : String
  health : Int
  location : String
deriving DecidableEq

/-- Modelled from the spec: `target_msg` lives in `commands/combat.py`, which is
not among the given source files; the spec calls it an external combat-message
formatter taking attacker name, weapon label and amount. -/
def target_msg (attackerKey weaponKey : String) (damage : Int) : String :=
  attackerKey ++ " hits you with " ++ weaponKey ++ " for " ++ toString damage ++ "."

/-- `Character.health_msg` of `typeclasses/characters.py`: the third-person
condition tier table, thresholds tested from the top down. -/
def health_msg (key : String) (health : Int) : String :=
  if health ≥ 1700 then key ++ " is in ultimate health."
  else if health > 1400 then key ++ " is in incredible health."
  else if health > 1200 then key ++ " is in extraordinary health."
  else if health > 1000 then key ++ " is in tremendous health."
  else if health > 850 then key ++ " is in superior condition."
  else if health > 700 then key ++ " is in exceptional health."
  else if health > 500 then key ++ " is in good health."
  else if health > 350 then key ++ " looks a little bit dazed."
  else if health > 200 then key ++ " has some minor wounds."
  else if health > 100 then key ++ " is suffering from some serious wounds."
  else if health > 50 then key ++ " is in critical condition."
  else if health > 1 then key ++ " is near death."
  else key ++ " is dead."

/-- `Character.self_health_msg` of `typeclasses/characters.py`: the
self-perspective condition tier table, thresholds tested from the top down. -/
def self_health_msg (health : Int) : String :=
  if health ≥ 1700 then "You are in ultimate health."
  else if health > 1400 then "You are in incredible health."
  else if health > 1200 then "You are in extraordinary health."
  else if health > 1000 then "You are in tremendous health."
  else if health > 850 then "You are in superior condition."
  else if health > 700 then "You are in exceptional health."
  else if health > 500 then "You are in good health."
  else if health > 350 then "You feel a little bit dazed."
  else if health > 200 then "You have some minor cuts and abrasions."
  else if health > 100 then "You are suffering from some serious wounds."
  else if health > 50 then "You are in critical condition."
  else if health > 1 then "You are near death."
  else "You are dead."

/-- The tier the third-person table selects, numbered from worst (0, dead) to
best (12, ultimate): the same threshold chain as `health_msg`. -/
def health_tier (health : Int) : Nat :=
  if health ≥ 1700 then 12
  else if health > 1400 then 11
  else if health > 1200 then 10
  else if health > 1000 then 9
  else if health > 850 then 8
  else if health > 700 then 7
  else if health > 500 then 6
  else if health > 350 then 5
  else if health > 200 then 4
  else if health > 100 then 3
  else if health > 50 then 2
  else if health > 1 then 1
  else 0

/-- The tier the self-perspective table selects, numbered from worst (0, dead)
to best (12, ultimate): the same threshold chain as `self_health_msg`. -/
def self_health_tier (health : Int) : Nat :=
  if health ≥ 1700 then 12
  else if health > 1400 then 11
  else if health > 1200 then 10
  else if health > 1000 then 9
  else if health > 850 then 8
  else if health > 700 then 7
  else if health > 500 then 6
  else if health > 350 then 5
  else if health > 200 then 4
  else if health > 100 then 3
  else if health > 50 then 2
  else if health > 1 then 1
  else 0

/-- The third-person phrase attached to each tier index. -/
def tier_phrase (key : String) (tier : Nat) : String :=
  match tier with
  | 12 => key ++ " is in ultimate health."
  | 11 => key ++ " is in incredible health."
  | 10 => key ++ " is in extraordinary health."
  | 9 => key ++ " is in tremendous health."
  | 8 => key ++ " is in superior condition."
  | 7 => key ++ " is in exceptional health."
  | 6 => key ++ " is in good health."
  | 5 => key ++ " looks a little bit dazed."
  | 4 => key ++ " has some minor wounds."
  | 3 => key ++ " is suffering from some serious wounds."
  | 2 => key ++ " is in critical condition."
  | 1 => key ++ " is near death."
  | _ => key ++ " is dead."

/-- The self-perspective phrase attached to each tier index. -/
def self_tier_phrase (tier : Nat) : String :=
  match tier with
  | 12 => "You are in ultimate health."
  | 11 => "You are in incredible health."
  | 10 => "You are in extraordinary health."
  | 9 => "You are in tremendous health."
  | 8 => "You are in superior condition."
  | 7 => "You are in exceptional health."
  | 6 => "You are in good health."
  | 5 => "You feel a little bit dazed."
  | 4 => "You have some minor cuts and abrasions."
  | 3 => "You are suffering from some serious wounds."
  | 2 => "You are in critical condition."
  | 1 => "You are near death."
  | _ => "You are dead."

/-- `health_msg` is exactly the phrase of the tier `health_tier` selects. -/
theorem health_msg_eq_tier (key : String) (health : Int) :
    health_msg key health = tier_phrase key (health_tier health) := by
  unfold health_msg health_tier
  by_cases c0 : health ≥ 1700
  · simp only [if_pos c0]; rfl
  simp only [if_neg c0]
  by_cases c1 : health > 1400
  · simp only [if_pos c1]; rfl
  simp only [if_neg c1]
  by_cases c2 : health > 1200
  · simp only [if_pos c2]; rfl
  simp only [if_neg c2]
  by_cases c3 : health > 1000
  · simp only [if_pos c3]; rfl
  simp only [if_neg c3]
  by_cases c4 : health > 850
  · simp only [if_pos c4]; rfl
  simp only [if_neg c4]
  by_cases c5 : health > 700
  · simp only [if_pos c5]; rfl
  simp only [if_neg c5]
  by_cases c6 : health > 500
  · simp only [if_pos c6]; rfl
  simp only [if_neg c6]
  by_cases c7 : health > 350
  · simp only [if_pos c7]; rfl
  simp only [if_neg c7]
  by_cases c8 : health > 200
  · simp only [if_pos c8]; rfl
  simp only [if_neg c8]
  by_cases c9 : health > 100
  · simp only [if_pos c9]; rfl
  simp only [if_neg c9]
  by_cases c10 : health > 50
  · simp only [if_pos c10]; rfl
  simp only [if_neg c10]
  by_cases c11 : health > 1
  · simp only [if_pos c11]; rfl
  simp only [if_neg c11]
  rfl

/-- `self_health_msg` is exactly the phrase of the tier `self_health_tier` selects. -/
theorem self_health_msg_eq_tier (health : Int) :
    self_health_msg health = self_tier_phrase (self_health_tier health) := by
  unfold self_health_msg self_health_tier
  by_cases c0 : health ≥ 1700
  · simp only [if_pos c0]; rfl
  simp only [if_neg c0]
  by_cases c1 : health > 1400
  · simp only [if_pos c1]; rfl
  simp only [if_neg c1]
  by_cases c2 : health > 1200
  · simp only [if_pos c2]; rfl
  simp only [if_neg c2]
  by_cases c3 : health > 1000
  · simp only [if_pos c3]; rfl
  simp only [if_neg c3]
  by_cases c4 : health > 850
  · simp only [if_pos c4]; rfl
  simp only [if_neg c4]
  by_cases c5 : health > 700
  · simp only [if_pos c5]; rfl
  simp only [if_neg c5]
  by_cases c6 : health > 500
  · simp only [if_pos c6]; rfl
  simp only [if_neg c6]
  by_cases c7 : health > 350
  · simp only [if_pos c7]; rfl
  simp only [if_neg c7]
  by_cases c8 : health > 200
  · simp only [if_pos c8]; rfl
  simp only [if_neg c8]
  by_cases c9 : health > 100
  · simp only [if_pos c9]; rfl
  simp only [if_neg c9]
  by_cases c10 : health > 50
  · simp only [if_pos c10]; rfl
  simp only [if_neg c10]
  by_cases c11 : health > 1
  · simp only [if_pos c11]; rfl
  simp only [if_neg c11]
  rfl

theorem health_tier_ge_12 (health : Int) (hb : health ≥ 1700) : 12 ≤ health_tier health := by
  unfold health_tier
  simp only [if_pos hb]
  exact le_rfl

theorem health_tier_ge_11 (health : Int) (hb : health > 1400) : 11 ≤ health_tier health := by
  by_cases hc : health ≥ 1700
  · exact le_trans (by omega) (health_tier_ge_12 health hc)
  · unfold health_tier
    simp only [if_neg hc, if_pos hb]
    exact le_rfl

theorem health_tier_ge_10 (health : Int) (hb : health > 1200) : 10 ≤ health_tier health := by
  by_cases hc : health > 1400
  · exact le_trans (by omega) (health_tier_ge_11 health hc)
  · unfold health_tier
    have n0 : ¬ (health ≥ 1700) := by omega
    simp only [if_neg n0, if_neg hc, if_pos hb]
    exact le_rfl

theorem health_tier_ge_9 (health : Int) (hb : health > 1000) : 9 ≤ health_tier health := by
  by_cases hc : health > 1200
  · exact le_trans (by omega) (health_tier_ge_10 health hc)
  · unfold health_tier
    have n0 : ¬ (health ≥ 1700) := by omega
    have n1 : ¬ (health > 1400) := by omega
    simp only [if_neg n0, if_neg n1, if_neg hc, if_pos hb]
    exact le_rfl

theorem health_tier_ge_8 (health : Int) (hb : health > 850) : 8 ≤ health_tier health := by
  by_cases hc : health > 1000
  · exact le_trans (by omega) (health_tier_ge_9 health hc)
  · unfold health_tier
    have n0 : ¬ (health ≥ 1700) := by omega
    have n1 : ¬ (health > 1400) := by omega
    have n2 : ¬ (health > 1200) := by omega
    simp only [if_neg n0, if_neg n1, if_neg n2, if_neg hc, if_pos hb]
    exact le_rfl

theorem health_tier_ge_7 (health : Int) (hb : health > 700) : 7 ≤ health_tier health := by
  by_cases hc : health > 850
  · exact le_trans (by omega) (health_tier_ge_8 health hc)
  · unfold health_tier
    have n0 : ¬ (health ≥ 1700) := by omega
    have n1 : ¬ (health > 1400) := by omega
    have n2 : ¬ (health > 1200) := by omega
    have n3 : ¬ (health > 1000) := by omega
    simp only [if_neg n0, if_neg n1, if_neg n2, if_neg n3, if_neg hc, if_pos hb]
    exact le_rfl

theorem health_tier_ge_6 (health : Int) (hb : health > 500) : 6 ≤ health_tier health := by
  by_cases hc : health > 700
  · exact le_trans (by omega) (health_tier_ge_7 health hc)
  · unfold health_tier
    have n0 : ¬ (health ≥ 1700) := by omega
    have n1 : ¬ (health > 1400) := by omega
    have n2 : ¬ (health > 1200) := by omega
    have n3 : ¬ (health > 1000) := by omega
    have n4 : ¬ (health > 850) := by omega
    simp only [if_neg n0, if_neg n1, if_neg n2, if_neg n3, if_neg n4, if_neg hc, if_pos hb]
    exact le_rfl

theorem health_tier_ge_5 (health : Int) (hb : health > 350) : 5 ≤ health_tier health := by
  by_cases hc : health > 500
  · exact le_trans (by omega) (health_tier_ge_6 health hc)
  · unfold health_tier
    have n0 : ¬ (health ≥ 1700) := by omega
    have n1 : ¬ (health > 1400) := by omega
    have n2 : ¬ (health > 1200) := by omega
    have n3 : ¬ (health > 1000) := by omega
    have n4 : ¬ (health > 850) := by omega
    have n5 : ¬ (health > 700) := by omega
    simp only [if_neg n0, if_neg n1, if_neg n2, if_neg n3, if_neg n4, if_neg n5, if_neg hc, if_pos hb]
    exact le_rfl

theorem health_tier_ge_4 (health : Int) (hb : health > 200) : 4 ≤ health_tier health := by
  by_cases hc : health > 350
  · exact le_trans (by omega) (health_tier_ge_5 health hc)
  · unfold health_tier
    have n0 : ¬ (health ≥ 1700) := by omega
    have n1 : ¬ (health > 1400) := by omega
    have n2 : ¬ (health > 1200) := by omega
    have n3 : ¬ (health > 1000) := by omega
    have n4 : ¬ (health > 850) := by omega
    have n5 : ¬ (health > 700) := by omega
    have n6 : ¬ (health > 500) := by omega
    simp only [if_neg n0, if_neg n1, if_neg n2, if_neg n3, if_neg n4, if_neg n5, if_neg n6, if_neg hc, if_pos hb]
    exact le_rfl

theorem health_tier_ge_3 (health : Int) (hb : health > 100) : 3 ≤ health_tier health := by
  by_cases hc : health > 200
  · exact le_trans (by omega) (health_tier_ge_4 health hc)
  · unfold health_tier
    have n0 : ¬ (health ≥ 1700) := by omega
    have n1 : ¬ (health > 1400) := by omega
    have n2 : ¬ (health > 1200) := by omega
    have n3 : ¬ (health > 1000) := by omega
    have n4 : ¬ (health > 850) := by omega
    have n5 : ¬ (health > 700) := by omega
    have n6 : ¬ (health > 500) := by omega
    have n7 : ¬ (health > 350) := by omega
    simp only [if_neg n0, if_neg n1, if_neg n2, if_neg n3, if_neg n4, if_neg n5, if_neg n6, if_neg n7, if_neg hc, if_pos hb]
    exact le_rfl

theorem health_tier_ge_2 (health : Int) (hb : health > 50) : 2 ≤ health_tier health := by
  by_cases hc : health > 100
  · exact le_trans (by omega) (health_tier_ge_3 health hc)
  · unfold health_tier
    have n0 : ¬ (health ≥ 1700) := by omega
    have n1 : ¬ (health > 1400) := by omega
    have n2 : ¬ (health > 1200) := by omega
    have n3 : ¬ (health > 1000) := by omega
    have n4 : ¬ (health > 850) := by omega
    have n5 : ¬ (health > 700) := by omega
    have n6 : ¬ (health > 500) := by omega
    have n7 : ¬ (health > 350) := by omega
    have n8 : ¬ (health > 200) := by omega
    simp only [if_neg n0, if_neg n1, if_neg n2, if_neg n3, if_neg n4, if_neg n5, if_neg n6, if_neg n7, if_neg n8, if_neg hc, if_pos hb]
    exact le_rfl

theorem health_tier_ge_1 (health : Int) (hb : health > 1) : 1 ≤ health_tier health := by
  by_cases hc : health > 50
  · exact le_trans (by omega) (health_tier_ge_2 health hc)
  · unfold health_tier
    have n0 : ¬ (health ≥ 1700) := by omega
    have n1 : ¬ (health > 1400) := by omega
    have n2 : ¬ (health > 1200) := by omega
    have n3 : ¬ (health > 1000) := by omega
    have n4 : ¬ (health > 850) := by omega
    have n5 : ¬ (health > 700) := by omega
    have n6 : ¬ (health > 500) := by omega
    have n7 : ¬ (health > 350) := by omega
    have n8 : ¬ (health > 200) := by omega
    have n9 : ¬ (health > 100) := by omega
    simp only [if_neg n0, if_neg n1, if_neg n2, if_neg n3, if_neg n4, if_neg n5, if_neg n6, if_neg n7, if_neg n8, if_neg n9, if_neg hc, if_pos hb]
    exact le_rfl

/-- The condition-tier selection is monotone in health. -/
theorem health_tier_mono (h1 h2 : Int) (hlt : h2 < h1) : health_tier h2 ≤ health_tier h1 := by
  by_cases d0 : h2 ≥ 1700
  · have e2 : health_tier h2 = 12 := by
      unfold health_tier
      simp only [if_pos d0]
    have g1 : 12 ≤ health_tier h1 := health_tier_ge_12 h1 (by omega)
    omega
  by_cases d1 : h2 > 1400
  · have e2 : health_tier h2 = 11 := by
      unfold health_tier
      simp only [if_neg d0, if_pos d1]
    have g1 : 11 ≤ health_tier h1 := health_tier_ge_11 h1 (by omega)
    omega
  by_cases d2 : h2 > 1200
  · have e2 : health_tier h2 = 10 := by
      unfold health_tier
      simp only [if_neg d0, if_neg d1, if_pos d2]
    have g1 : 10 ≤ health_tier h1 := health_tier_ge_10 h1 (by omega)
    omega
  by_cases d3 : h2 > 1000
  · have e2 : health_tier h2 = 9 := by
      unfold health_tier
      simp only [if_neg d0, if_neg d1, if_neg d2, if_pos d3]
    have g1 : 9 ≤ health_tier h1 := health_tier_ge_9 h1 (by omega)
    omega
  by_cases d4 : h2 > 850
  · have e2 : health_tier h2 = 8 := by
      unfold health_tier
      simp only [if_neg d0, if_neg d1, if_neg d2, if_neg d3, if_pos d4]
    have g1 : 8 ≤ health_tier h1 := health_tier_ge_8 h1 (by omega)
    omega
  by_cases d5 : h2 > 700
  · have e2 : health_tier h2 = 7 := by
      unfold health_tier
      simp only [if_neg d0, if_neg d1, if_neg d2, if_neg d3, if_neg d4, if_pos d5]
    have g1 : 7 ≤ health_tier h1 := health_tier_ge_7 h1 (by omega)
    omega
  by_cases d6 : h2 > 500
  · have e2 : health_tier h2 = 6 := by
      unfold health_tier
      simp only [if_neg d0, if_neg d1, if_neg d2, if_neg d3, if_neg d4, if_neg d5, if_pos d6]
    have g1 : 6 ≤ health_tier h1 := health_tier_ge_6 h1 (by omega)
    omega
  by_cases d7 : h2 > 350
  · have e2 : health_tier h2 = 5 := by
      unfold health_tier
      simp only [if_neg d0, if_neg d1, if_neg d2, if_neg d3, if_neg d4, if_neg d5, if_neg d6, if_pos d7]
    have g1 : 5 ≤ health_tier h1 := health_tier_ge_5 h1 (by omega)
    omega
  by_cases d8 : h2 > 200
  · have e2 : health_tier h2 = 4 := by
      unfold health_tier
      simp only [if_neg d0, if_neg d1, if_neg d2, if_neg d3, if_neg d4, if_neg d5, if_neg d6, if_neg d7, if_pos d8]
    have g1 : 4 ≤ health_tier h1 := health_tier_ge_4 h1 (by omega)
    omega
  by_cases d9 : h2 > 100
  · have e2 : health_tier h2 = 3 := by
      unfold health_tier
      simp only [if_neg d0, if_neg d1, if_neg d2, if_neg d3, if_neg d4, if_neg d5, if_neg d6, if_neg d7, if_neg d8, if_pos d9]
    have g1 : 3 ≤ health_tier h1 := health_tier_ge_3 h1 (by omega)
    omega
  by_cases d10 : h2 > 50
  · have e2 : health_tier h2 = 2 := by
      unfold health_tier
      simp only [if_neg d0, if_neg d1, if_neg d2, if_neg d3, if_neg d4, if_neg d5, if_neg d6, if_neg d7, if_neg d8, if_neg d9, if_pos d10]
    have g1 : 2 ≤ health_tier h1 := health_tier_ge_2 h1 (by omega)
    omega
  by_cases d11 : h2 > 1
  · have e2 : health_tier h2 = 1 := by
      unfold health_tier
      simp only [if_neg d0, if_neg d1, if_neg d2, if_neg d3, if_neg d4, if_neg d5, if_neg d6, if_neg d7, if_neg d8, if_neg d9, if_neg d10, if_pos d11]
    have g1 : 1 ≤ health_tier h1 := health_tier_ge_1 h1 (by omega)
    omega
  have e2 : health_tier h2 = 0 := by
    unfold health_tier
    simp only [if_neg d0, if_neg d1, if_neg d2, if_neg d3, if_neg d4, if_neg d5, if_neg d6, if_neg d7, if_neg d8, if_neg d9, if_neg d10, if_neg d11]
  omega

/-- The self-perspective table tests the same thresholds as the third-person
table, so its tier function agrees with `health_tier` definitionally. -/
theorem self_health_tier_eq_health_tier (health : Int) :
    self_health_tier health = health_tier health := rfl

/-- `Character.die` of `typeclasses/characters.py`.  Its first statement is
`the_void = search_object("Limbo")`, but `characters.py` neither imports nor
defines `search_object` (its imports are `DefaultCharacter`, `cmdhandler` and
`target_msg` only), so Python's name lookup fails and the call raises
`NameError` before any statement of `die` takes effect: the actor is not moved,
and the dead statements `if the_void: self.move_to(the_void)` and
`self.db.health = 200` never run. -/
def die (_self : Character) : Except String Character :=
  Except.error "NameError: name 'search_object' is not defined"

/-- The observable outcome of one completed `at_weapon_hit` call: the updated
character, the emitted messages in order, and whether the death branch ran. -/
structure HitResult where
  char : Character
  events : List Event
  died : Bool
deriving DecidableEq

/-- `Character.at_weapon_hit` of `typeclasses/characters.py`: message the
defender with the strike, clamp health below at 0, message the defender and the
room with the new condition, and invoke `die` when health is 0 or less.  Since
`die` raises `NameError` (see `die`), the death branch propagates that error
(the three messages have already been sent when it raises); only the no-death
branch completes. -/
def at_weapon_hit (c : Character) (attackerKey weaponKey : String) (damage : Int) :
    Except String HitResult :=
  let e1 := Event.selfMsg (target_msg attackerKey weaponKey damage)
  let c1 : Character := { c with health := max (c.health - damage) 0 }
  let e2 := Event.selfMsg (self_health_msg c1.health)
  let e3 := Event.roomMsgExcludingSelf (health_msg c1.key c1.health)
  if c1.health ≤ 0 then
    match die c1 with
    | Except.error e => Except.error e
    | Except.ok c2 => Except.ok { char := c2, events := [e1, e2, e3], died := true }
  else
    Except.ok { char := c1, events := [e1, e2, e3], died := false }

/-- A sequence of `at_weapon_hit` calls against the same defender, each hit
given as (attacker key, weapon key, damage); the sequence stops at the first
raised error. -/
def applyDamages (c : Character) (hits : List (String × String × Int)) :
    Except String Character :=
  match hits with
  | [] => Except.ok c
  | hit :: rest =>
    match at_weapon_hit c hit.1 hit.2.1 hit.2.2 with
    | Except.error e => Except.error e
    | Except.ok r => applyDamages r.char rest

theorem applyDamages_cons (c : Character) (hit : String × String × Int)
    (hits : List (String × String × Int)) :
    applyDamages c (hit :: hits) =
      match at_weapon_hit c hit.1 hit.2.1 hit.2.2 with
      | Except.error e => Except.error e
      | Except.ok r => applyDamages r.char hits := rfl

/-- A completed hit carries exactly the below-clamped health: the death branch
never completes, so `Except.ok` only arises from the no-death branch. -/
theorem at_weapon_hit_ok_health (c : Character) (attackerKey weaponKey : String)
    (damage : Int) (r : HitResult)
    (hok : at_weapon_hit c attackerKey weaponKey damage = Except.ok r) :
    r.char.health = max (c.health - damage) 0 := by
  unfold at_weapon_hit die at hok
  by_cases h : max (c.health - damage) 0 ≤ 0
  · simp only [if_pos h] at hok
    simp at hok
  · simp only [if_neg h, Except.ok.injEq] at hok
    subst hok
    rfl

theorem at_weapon_hit_ok_nonneg (c : Character) (attackerKey weaponKey : String)
    (damage : Int) (r : HitResult)
    (hok : at_weapon_hit c attackerKey weaponKey damage = Except.ok r) :
    0 ≤ r.char.health := by
  rw [at_weapon_hit_ok_health c attackerKey weaponKey damage r hok]
  exact le_max_right _ _

theorem at_weapon_hit_ok_le (c : Character) (attackerKey weaponKey : String)
    (damage : Int) (r : HitResult) (M : Int)
    (h0 : 0 ≤ c.health) (h1 : c.health ≤ M) (hd : 0 ≤ damage)
    (hok : at_weapon_hit c attackerKey weaponKey damage = Except.ok r) :
    r.char.health ≤ M := by
  rw [at_weapon_hit_ok_health c attackerKey weaponKey damage r hok]
  exact max_le (by omega) (by omega)

theorem applyDamages_ok_nonneg (c : Character) (hits : List (String × String × Int))
    (c' : Character) (h0 : 0 ≤ c.health)
    (hok : applyDamages c hits = Except.ok c') :
    0 ≤ c'.health := by
  induction hits generalizing c with
  | nil =>
    simp only [applyDamages, Except.ok.injEq] at hok
    exact hok ▸ h0
  | cons hit t ih =>
    rw [applyDamages_cons] at hok
    split at hok
    · simp at hok
    · rename_i r hstep
      exact ih r.char (at_weapon_hit_ok_nonneg c hit.1 hit.2.1 hit.2.2 r hstep) hok

theorem applyDamages_ok_le (c : Character) (hits : List (String × String × Int))
    (M : Int) (c' : Character)
    (h0 : 0 ≤ c.health) (h1 : c.health ≤ M)
    (hd : ∀ hit ∈ hits, 0 ≤ hit.2.2)
    (hok : applyDamages c hits = Except.ok c') :
    c'.health ≤ M := by
  induction hits generalizing c with
  | nil =>
    simp only [applyDamages, Except.ok.injEq] at hok
    exact hok ▸ h1
  | cons hit t ih =>
    rw [applyDamages_cons] at hok
    split at hok
    · simp at hok
    · rename_i r hstep
      exact ih r.char
        (at_weapon_hit_ok_nonneg c hit.1 hit.2.1 hit.2.2 r hstep)
        (at_weapon_hit_ok_le c hit.1 hit.2.1 hit.2.2 r M h0 h1
          (hd hit (List.mem_cons_self _ _)) hstep)
        (fun x hx => hd x (List.mem_cons_of_mem _ hx)) hok

/-- C1: the code contradicts the claim at the failing input.  A defender
driven to 0 health enters the death branch, and `die` raises `NameError` (the
`search_object` call has no binding in `characters.py`), so `at_weapon_hit`
propagates the error to its caller: health is never reset to 200 and the
failure does raise. -/
theorem death_raises_name_error :
    at_weapon_hit ⟨"defender", 100, "room"⟩ "attacker" "sword" 150 =
      Except.error "NameError: name 'search_object' is not defined" := rfl

/-- C2 counterexample: at health 1000 (equal to the starting maximum), a hit
with damage -1 completes with health 1001: `at_weapon_hit` clamps only from
below, so a negative amount is added to health rather than treated as zero,
and the upper bound `health ≤ maxHealth` is violated. -/
theorem negative_damage_not_clamped :
    at_weapon_hit ⟨"defender", 1000, "room"⟩ "attacker" "sword" (-1) =
      Except.ok ⟨⟨"defender", 1001, "room"⟩,
        [Event.selfMsg (target_msg "attacker" "sword" (-1)),
         Event.selfMsg "You are in tremendous health.",
         Event.roomMsgExcludingSelf "defender is in tremendous health."],
        false⟩ ∧
    ¬((1001 : Int) ≤ 1000) :=
  ⟨rfl, by decide⟩

/-- C2 amended: negative damage is not treated as zero (see the
counterexample).  For every completed prefix of a sequence of `at_weapon_hit`
calls — a call that drives health to 0 raises `NameError` from `die` and does
not complete — health stays at least 0 for arbitrary integer damage amounts,
and also stays at most `maxHealth` when every damage amount is nonnegative. -/
theorem applyDamages_health_invariant (c : Character) (M : Int)
    (hits : List (String × String × Int)) (n : Nat) (c' : Character)
    (h0 : 0 ≤ c.health) (h1 : c.health ≤ M)
    (hok : applyDamages c (hits.take n) = Except.ok c') :
    0 ≤ c'.health ∧ ((∀ hit ∈ hits, 0 ≤ hit.2.2) → c'.health ≤ M) :=
  ⟨applyDamages_ok_nonneg c (hits.take n) c' h0 hok,
   fun hd => applyDamages_ok_le c (hits.take n) M c' h0 h1
     (fun hit hmem => hd hit (List.take_subset n hits hmem)) hok⟩

theorem applyDamages_health_invariant_witness :
    0 ≤ (⟨"defender", 850, "room"⟩ : Character).health ∧
    ((∀ hit ∈ [("attacker", "sword", (150 : Int))], 0 ≤ hit.2.2) →
      (⟨"defender", 850, "room"⟩ : Character).health ≤ 1000) :=
  applyDamages_health_invariant ⟨"defender", 1000, "room"⟩ 1000
    [("attacker", "sword", 150)] 1 ⟨"defender", 850, "room"⟩
    (by decide) (by decide) (by rfl)

/-- C7: at health 1000 a hit of 150 completes without raising, leaving health
850 and no death: the defender sees the self-perspective "exceptional health"
message (tier 7, since 850 is not strictly greater than 850), the room gets
the equivalent third-person message excluding the defender, and the location
is unchanged. -/
theorem hit_at_1000_for_150 :
    at_weapon_hit ⟨"Defender", 1000, "Town Square"⟩ "Attacker" "sword" 150 =
      Except.ok ⟨⟨"Defender", 850, "Town Square"⟩,
        [Event.selfMsg (target_msg "Attacker" "sword" 150),
         Event.selfMsg "You are in exceptional health.",
         Event.roomMsgExcludingSelf "Defender is in exceptional health."],
        false⟩ ∧
    self_health_tier 850 = 7 :=
  ⟨rfl, by decide⟩

/-- C8: condition-tier selection is monotonic: for health values h1 > h2, the
tier the self-perspective table selects for h1 is never lower (worse) than for
h2, and likewise for the third-person table. -/
theorem tier_selection_monotone (h1 h2 : Int) (hgt : h2 < h1) :
    self_health_tier h2 ≤ self_health_tier h1 ∧ health_tier h2 ≤ health_tier h1 := by
  have m := health_tier_mono h1 h2 hgt
  exact ⟨by
    rw [self_health_tier_eq_health_tier, self_health_tier_eq_health_tier]
    exact m, m⟩

theorem tier_selection_monotone_witness :
    self_health_tier 500 ≤ self_health_tier 1000 ∧ health_tier 500 ≤ health_tier 1000 :=
  tier_selection_monotone 1000 500 (by norm_num)

/-- Modelled from the spec: `gamerules/room_kind.py` is not among the given
source files; the spec gives the location's concealment policy as the
enumeration NORMAL, NO_HIDE, HARD_TO_HIDE, and `gamerules/hiding.py` references
exactly the members `RoomKind.NO_HIDE` and `RoomKind.HARD_TO_HIDE`. -/
inductive RoomKind where
  | NORMAL
  | NO_HIDE
  | HARD_TO_HIDE
deriving DecidableEq

/-- An actor as the concealment engine reads and mutates it: `key`, the
`is_typeclass("typeclasses.characters.Character")` classification, the
transient `ndb.ndb_hiding` concealment level, and the externally derived
`level()`. -/
structure Actor where
  key : String
  isCharacter : Bool
  ndb_hiding : Nat
  level : Nat
deriving DecidableEq

/-- A room as `hide` reads it: `room.db.room_kind` and `room.contents`. -/
structure Room where
  kind : RoomKind
  contents : List Actor
deriving DecidableEq

/-- `MAX_HIDE` of `gamerules/hiding.py`. -/
def MAX_HIDE : Nat := 15

/-- Modelled from the spec: `is_hiding` is defined outside the given source
files; the spec reads it as the actor being currently concealed, i.e. a
nonzero concealment level. -/
def is_hiding (a : Actor) : Bool := a.ndb_hiding > 0

/-- Messaging events of the concealment engine: `actor.msg text` and
`location.msg_contents text (exclude excludeKey)`; both broadcasts in
`gamerules/hiding.py` exclude exactly one actor. -/
inductive HEvent where
  | msgTo (key text : String)
  | roomMsg (text : String) (excludeKey : String)
deriving DecidableEq

/-- `num_unhidden_others` of `gamerules/hiding.py`: counts the occupants of
the room that are Characters other than the hider (despite the name, it does
not test concealment). -/
def num_unhidden_others (room : Room) (hider : Actor) : Nat :=
  (room.contents.filter (fun obj => obj.isCharacter && obj != hider)).length

/-- `hide` of `gamerules/hiding.py`.  `roll1` and `roll2` stand for the two
`random.randint(0, 100)` draws (the hard-to-hide roll and the 25 percent
failure roll); each is reduced with `% 101` into the inclusive range 0..100,
so quantifying over all naturals quantifies over all roll outcomes.  The
result is the hider's new `ndb.ndb_hiding` value and the message sent to the
hider. -/
def hide (room : Room) (hider : Actor) (roll1 roll2 : Nat) : Nat × String :=
  if room.kind = RoomKind.NO_HIDE then
    (hider.ndb_hiding, "There is no room to hide here.")
  else if room.kind = RoomKind.HARD_TO_HIDE ∧ roll1 % 101 > 20 then
    (hider.ndb_hiding, "You couldn't find a place to hide.")
  else if num_unhidden_others room hider > 0 then
    if hider.ndb_hiding > 0 then
      (hider.ndb_hiding, "You can't hide any better with people in the room.")
    else
      (hider.ndb_hiding, "You can't hide when people are watching you.")
  else if roll2 % 101 < 25 then
    if hider.ndb_hiding > 0 then
      (hider.ndb_hiding, "You could not find a better hiding place.")
    else
      (hider.ndb_hiding, "You could not find a good hiding place.")
  else if hider.ndb_hiding > hider.level then
    (hider.ndb_hiding, "You're pretty well hidden now.  I don't think you could be any less visible.")
  else if hider.ndb_hiding + 1 > 1 then
    (hider.ndb_hiding + 1, "You've managed to hide yourself a little better.")
  else
    (hider.ndb_hiding + 1, "You've hidden yourself from view.")

/-- `reveal` of `gamerules/hiding.py`: the hider's new `ndb.ndb_hiding` value and
the emitted messages. -/
def reveal (hider : Actor) : Nat × List HEvent :=
  if hider.ndb_hiding = 0 then
    (hider.ndb_hiding, [HEvent.msgTo hider.key "You were not hiding."])
  else
    (0, [HEvent.msgTo hider.key "You are no longer hiding.",
         HEvent.roomMsg (hider.key ++ " has stepped out of the shadows.") hider.key])

/-- `random.choice` on the filtered character list: raises `IndexError` on an
empty sequence, otherwise returns the element the draw (reduced into the index
range) selects. -/
def choice (xs : List Actor) (draw : Nat) : Except String Actor :=
  match xs with
  | [] => Except.error "IndexError: cannot choose from an empty sequence"
  | x :: rest => Except.ok ((x :: rest).getD (draw % (x :: rest).length) x)

/-- The retry loop of `reveal_people` (`for retry in range(0, 7)`), counting
the remaining retries down from 7.  `picks fuel` is the `random.choice` draw
and `rolls fuel % (MAX_HIDE + 1)` the `random.randint(0, MAX_HIDE)` draw of
the iteration with `fuel` retries left.  Returns the discovered actor, `none`
when all retries fail, or the propagated `IndexError`. -/
def rp_go (searcher : Actor) (characters : List Actor) (picks rolls : Nat → Nat) :
    Nat → Except String (Option Actor)
  | 0 => Except.ok none
  | fuel + 1 =>
    match choice characters (picks (fuel + 1)) with
    | Except.error e => Except.error e
    | Except.ok picked =>
      if picked ≠ searcher ∧ is_hiding picked = true ∧
          rolls (fuel + 1) % (MAX_HIDE + 1) > picked.ndb_hiding then
        Except.ok (some picked)
      else
        rp_go searcher characters picks rolls fuel

/-- `reveal_people` of `gamerules/hiding.py`: filters the location contents to
Characters, runs the retry loop, and on a discovery zeroes the picked actor's
`ndb.ndb_hiding` and emits the three discovery messages.  Returns the updated
contents, the emitted events and the `found` flag. -/
def reveal_people (contents : List Actor) (searcher : Actor) (picks rolls : Nat → Nat) :
    Except String (List Actor × List HEvent × Bool) :=
  match rp_go searcher (contents.filter (fun x => x.isCharacter)) picks rolls 7 with
  | Except.error e => Except.error e
  | Except.ok none => Except.ok (contents, [], false)
  | Except.ok (some picked) =>
    Except.ok
      (contents.map (fun x => if x = picked then { x with ndb_hiding := 0 } else x),
       [HEvent.msgTo searcher.key ("You've found " ++ picked.key ++ " hiding in the shadows!"),
        HEvent.msgTo picked.key ("You've been discovered by " ++ searcher.key),
        HEvent.roomMsg (searcher.key ++ " has found " ++ picked.key ++ " hiding in the shadows!")
          searcher.key],
       true)

/-- The opening broadcast of `search`. -/
def looking_msg (searcher : Actor) : HEvent :=
  HEvent.roomMsg (searcher.key ++ " seems to be looking for something.") searcher.key

/-- The message `search` sends the searcher when nothing was found. -/
def not_found_msg (searcher : Actor) : HEvent :=
  HEvent.msgTo searcher.key "You haven't found anything."

/-- The observable outcome of `search`: the (possibly updated) location
contents, the emitted events in order, and the `found` flag. -/
structure SearchResult where
  contents : List Actor
  events : List HEvent
  found : Bool
deriving DecidableEq

/-- `search` of `gamerules/hiding.py`.  `catRoll % 101` stands for the
category draw `random.randint(0, 100)`; `rand < 20` is the reveal-objects
branch (a `pass`), `rand < 40` the reveal-exits branch (a `pass`), and the
remainder runs `reveal_people`.  When the taken branch found nothing the
searcher is told so. -/
def search (contents : List Actor) (searcher : Actor) (catRoll : Nat)
    (picks rolls : Nat → Nat) : Except String SearchResult :=
  if catRoll % 101 < 20 then
    Except.ok ⟨contents, [looking_msg searcher, not_found_msg searcher], false⟩
  else if catRoll % 101 < 40 then
    Except.ok ⟨contents, [looking_msg searcher, not_found_msg searcher], false⟩
  else
    match reveal_people contents searcher picks rolls with
    | Except.error e => Except.error e
    | Except.ok (c, evs, found) =>
      Except.ok ⟨c,
        looking_msg searcher :: evs ++
          (if found then [] else [not_found_msg searcher]),
        found⟩

theorem choice_singleton (a : Actor) (draw : Nat) : choice [a] draw = Except.ok a := by
  simp [choice, Nat.mod_one]

/-- With the searcher as the only candidate, every retry picks the searcher
and the condition `picked != searcher` fails, so the loop never finds
anyone. -/
theorem rp_go_self (searcher : Actor) (picks rolls : Nat → Nat) (fuel : Nat) :
    rp_go searcher [searcher] picks rolls fuel = Except.ok none := by
  induction fuel with
  | zero => rfl
  | succ n ih => simp [rp_go, choice_singleton, ih]

/-- An actor the retry loop discovers has concealment level strictly below
`MAX_HIDE`: the discovery roll lies in 0..MAX_HIDE and must strictly exceed
the level. -/
theorem rp_go_some_ndb_lt (searcher : Actor) (chars : List Actor)
    (picks rolls : Nat → Nat) :
    ∀ fuel picked, rp_go searcher chars picks rolls fuel = Except.ok (some picked) →
      picked.ndb_hiding < MAX_HIDE := by
  intro fuel
  induction fuel with
  | zero =>
    intro picked h
    exact absurd h (by simp [rp_go])
  | succ n ih =>
    intro picked h
    rw [rp_go] at h
    split at h
    · simp at h
    · split at h
      · rename_i p heq hcond
        simp only [Except.ok.injEq, Option.some.injEq] at h
        subst h
        have hroll : rolls (n + 1) % (MAX_HIDE + 1) < MAX_HIDE + 1 :=
          Nat.mod_lt _ (Nat.succ_pos _)
        have hgt := hcond.2.2
        omega
      · exact ih picked h

/-- A successful `reveal_people` only rewrites the actor the loop discovered;
an actor it can never discover is still in the returned contents. -/
theorem reveal_people_preserves (contents : List Actor) (searcher : Actor)
    (picks rolls : Nat → Nat) (a : Actor) (c : List Actor) (evs : List HEvent)
    (found : Bool)
    (hne : ∀ picked,
      rp_go searcher (contents.filter (fun x => x.isCharacter)) picks rolls 7 =
        Except.ok (some picked) → picked ≠ a)
    (h : reveal_people contents searcher picks rolls = Except.ok (c, evs, found)) :
    a ∈ contents → a ∈ c := by
  intro hmem
  unfold reveal_people at h
  split at h
  · simp at h
  · simp only [Except.ok.injEq, Prod.mk.injEq] at h
    rcases h with ⟨rfl, -, -⟩
    exact hmem
  · rename_i picked heq
    simp only [Except.ok.injEq, Prod.mk.injEq] at h
    rcases h with ⟨rfl, -, -⟩
    have hpa : picked ≠ a := hne picked heq
    exact List.mem_map.mpr ⟨a, hmem, by rw [if_neg (Ne.symm hpa)]⟩

/-- C3 counterexample: running the reveal-people branch (category roll 50)
with an empty candidate set does not complete without raising: `random.choice`
on the empty character list raises `IndexError`, which the embedding returns
as an error. -/
theorem search_empty_candidates_raises :
    search [] ⟨"searcher", true, 0, 1⟩ 50 (fun _ => 0) (fun _ => 0) =
      Except.error "IndexError: cannot choose from an empty sequence" := rfl

/-- C3 amended: when the reveal-people branch of `search` runs with a
candidate set containing only the searcher, the operation completes without
raising, changes no actor's concealment level (the contents come back
unchanged), and reports "You haven't found anything." to the searcher; a
candidate set that is empty instead raises `IndexError` (see the
counterexample). -/
theorem search_self_only (contents : List Actor) (searcher : Actor) (catRoll : Nat)
    (picks rolls : Nat → Nat)
    (hc : contents.filter (fun x => x.isCharacter) = [searcher])
    (hr : 40 ≤ catRoll % 101) :
    search contents searcher catRoll picks rolls =
      Except.ok ⟨contents, [looking_msg searcher, not_found_msg searcher], false⟩ := by
  unfold search
  rw [if_neg (by omega), if_neg (by omega)]
  unfold reveal_people
  rw [hc, rp_go_self]
  rfl

theorem search_self_only_witness :
    search [⟨"searcher", true, 0, 1⟩] ⟨"searcher", true, 0, 1⟩ 50 (fun _ => 0) (fun _ => 0) =
      Except.ok ⟨[⟨"searcher", true, 0, 1⟩],
        [looking_msg ⟨"searcher", true, 0, 1⟩, not_found_msg ⟨"searcher", true, 0, 1⟩],
        false⟩ :=
  search_self_only [⟨"searcher", true, 0, 1⟩] ⟨"searcher", true, 0, 1⟩ 50
    (fun _ => 0) (fun _ => 0) (by rfl) (by norm_num)

/-- C4 counterexample: in a NO_HIDE room with another character present, an
unconcealed hider gets the room-kind message, not either of the two
people-in-the-room messages, so the failure message does not vary by whether
the actor is already concealed. -/
theorem hide_occupied_nohide_msg :
    hide ⟨RoomKind.NO_HIDE, [⟨"hider", true, 0, 1⟩, ⟨"other", true, 0, 1⟩]⟩
        ⟨"hider", true, 0, 1⟩ 0 0 =
      (0, "There is no room to hide here.") ∧
    0 < num_unhidden_others
        ⟨RoomKind.NO_HIDE, [⟨"hider", true, 0, 1⟩, ⟨"other", true, 0, 1⟩]⟩
        ⟨"hider", true, 0, 1⟩ ∧
    "There is no room to hide here." ≠ "You can't hide when people are watching you." ∧
    "There is no room to hide here." ≠ "You can't hide any better with people in the room." := by
  decide

/-- C4 amended: with at least one other character in the room, `hide` leaves
the concealment level unchanged for every room kind and every roll outcome;
and whenever the room-kind checks pass (the room is not NO_HIDE, and not a
HARD_TO_HIDE room whose roll exceeds 20), the failure message varies by
whether the actor is already concealed. -/
theorem hide_occupied_no_change (room : Room) (hider : Actor) (roll1 roll2 : Nat)
    (hocc : num_unhidden_others room hider > 0) :
    (hide room hider roll1 roll2).1 = hider.ndb_hiding ∧
    (room.kind ≠ RoomKind.NO_HIDE →
      ¬(room.kind = RoomKind.HARD_TO_HIDE ∧ roll1 % 101 > 20) →
      (hide room hider roll1 roll2).2 =
        if hider.ndb_hiding > 0 then "You can't hide any better with people in the room."
        else "You can't hide when people are watching you.") := by
  unfold hide
  by_cases k1 : room.kind = RoomKind.NO_HIDE
  · rw [if_pos k1]
    exact ⟨rfl, fun hn _ => absurd k1 hn⟩
  · rw [if_neg k1]
    by_cases k2 : room.kind = RoomKind.HARD_TO_HIDE ∧ roll1 % 101 > 20
    · rw [if_pos k2]
      exact ⟨rfl, fun _ hn => absurd k2 hn⟩
    · rw [if_neg k2, if_pos hocc]
      by_cases hh : hider.ndb_hiding > 0
      · rw [if_pos hh]
        exact ⟨rfl, fun _ _ => by rw [if_pos hh]⟩
      · rw [if_neg hh]
        exact ⟨rfl, fun _ _ => by rw [if_neg hh]⟩

theorem hide_occupied_no_change_witness :
    (hide ⟨RoomKind.NORMAL, [⟨"hider", true, 0, 1⟩, ⟨"other", true, 0, 1⟩]⟩
        ⟨"hider", true, 0, 1⟩ 3 4).1 = 0 ∧
    (hide ⟨RoomKind.NORMAL, [⟨"hider", true, 0, 1⟩, ⟨"other", true, 0, 1⟩]⟩
        ⟨"hider", true, 0, 1⟩ 3 4).2 = "You can't hide when people are watching you." := by
  have h := hide_occupied_no_change
    ⟨RoomKind.NORMAL, [⟨"hider", true, 0, 1⟩, ⟨"other", true, 0, 1⟩]⟩
    ⟨"hider", true, 0, 1⟩ 3 4 (by decide)
  refine ⟨h.1, ?_⟩
  rw [h.2 (by decide) (by decide)]
  decide

/-- All checks before the level cap check of `hide` passed: the room permits
the attempt, no other character watches, and the 25 percent failure roll
succeeded. -/
def reaches_cap_check (room : Room) (hider : Actor) (roll1 roll2 : Nat) : Prop :=
  room.kind ≠ RoomKind.NO_HIDE ∧
  ¬(room.kind = RoomKind.HARD_TO_HIDE ∧ roll1 % 101 > 20) ∧
  ¬(num_unhidden_others room hider > 0) ∧
  ¬(roll2 % 101 < 25)

instance (room : Room) (hider : Actor) (roll1 roll2 : Nat) :
    Decidable (reaches_cap_check room hider roll1 roll2) := by
  unfold reaches_cap_check
  infer_instance

/-- C5: `hide` preserves the bound `concealmentLevel ≤ level + 1`; when the
cap check is reached with `concealmentLevel > level` it reports the actor
cannot become less visible and leaves the level unchanged, and otherwise a
fully successful hide increments the level by exactly 1. -/
theorem hide_cap_bound (room : Room) (hider : Actor) (roll1 roll2 : Nat) :
    (hider.ndb_hiding ≤ hider.level + 1 →
      (hide room hider roll1 roll2).1 ≤ hider.level + 1) ∧
    (reaches_cap_check room hider roll1 roll2 →
      (hider.ndb_hiding > hider.level →
        hide room hider roll1 roll2 =
          (hider.ndb_hiding,
           "You're pretty well hidden now.  I don't think you could be any less visible.")) ∧
      (hider.ndb_hiding ≤ hider.level →
        (hide room hider roll1 roll2).1 = hider.ndb_hiding + 1)) := by
  unfold hide
  by_cases k1 : room.kind = RoomKind.NO_HIDE
  · rw [if_pos k1]
    exact ⟨fun h => h, fun hrc => absurd k1 hrc.1⟩
  · rw [if_neg k1]
    by_cases k2 : room.kind = RoomKind.HARD_TO_HIDE ∧ roll1 % 101 > 20
    · rw [if_pos k2]
      exact ⟨fun h => h, fun hrc => absurd k2 hrc.2.1⟩
    · rw [if_neg k2]
      by_cases k3 : num_unhidden_others room hider > 0
      · rw [if_pos k3]
        refine ⟨?_, fun hrc => absurd k3 hrc.2.2.1⟩
        intro h
        by_cases hh : hider.ndb_hiding > 0
        · rw [if_pos hh]; exact h
        · rw [if_neg hh]; exact h
      · rw [if_neg k3]
        by_cases k4 : roll2 % 101 < 25
        · rw [if_pos k4]
          refine ⟨?_, fun hrc => absurd k4 hrc.2.2.2⟩
          intro h
          by_cases hh : hider.ndb_hiding > 0
          · rw [if_pos hh]; exact h
          · rw [if_neg hh]; exact h
        · rw [if_neg k4]
          by_cases k5 : hider.ndb_hiding > hider.level
          · rw [if_pos k5]
            exact ⟨fun h => h, fun _ => ⟨fun _ => rfl, fun hle => absurd k5 (by omega)⟩⟩
          · rw [if_neg k5]
            have hstep : (if hider.ndb_hiding + 1 > 1 then
                (hider.ndb_hiding + 1, "You've managed to hide yourself a little better.")
              else
                (hider.ndb_hiding + 1, "You've hidden yourself from view.")).1 =
                hider.ndb_hiding + 1 := by
              by_cases h1p : hider.ndb_hiding + 1 > 1
              · rw [if_pos h1p]
              · rw [if_neg h1p]
            refine ⟨fun h => ?_, fun _ => ⟨fun hgt => absurd hgt k5, fun _ => hstep⟩⟩
            rw [hstep]
            omega

theorem hide_cap_bound_witness :
    (hide ⟨RoomKind.NORMAL, [⟨"capped", true, 4, 3⟩]⟩ ⟨"capped", true, 4, 3⟩ 0 30).1 ≤ 4 ∧
    hide ⟨RoomKind.NORMAL, [⟨"capped", true, 4, 3⟩]⟩ ⟨"capped", true, 4, 3⟩ 0 30 =
      (4, "You're pretty well hidden now.  I don't think you could be any less visible.") :=
  ⟨(hide_cap_bound ⟨RoomKind.NORMAL, [⟨"capped", true, 4, 3⟩]⟩
      ⟨"capped", true, 4, 3⟩ 0 30).1 (by decide),
   ((hide_cap_bound ⟨RoomKind.NORMAL, [⟨"capped", true, 4, 3⟩]⟩
      ⟨"capped", true, 4, 3⟩ 0 30).2 (by decide)).1 (by decide)⟩

/-- C6: `reveal` always ends with concealment level 0; on a non-hidden actor
it is a no-op that sends "You were not hiding." (so repeating it changes
nothing and repeats the same message), and on a hidden actor it sets the level
to exactly 0, notifies the actor, and broadcasts the stepped-out-of-the-shadows
message to the other occupants (excluding the actor). -/
theorem reveal_ends_unhidden (hider : Actor) :
    (reveal hider).1 = 0 ∧
    (hider.ndb_hiding = 0 →
      reveal hider = (hider.ndb_hiding, [HEvent.msgTo hider.key "You were not hiding."])) ∧
    (0 < hider.ndb_hiding →
      reveal hider =
        (0, [HEvent.msgTo hider.key "You are no longer hiding.",
             HEvent.roomMsg (hider.key ++ " has stepped out of the shadows.") hider.key])) := by
  unfold reveal
  by_cases h : hider.ndb_hiding = 0
  · rw [if_pos h]
    exact ⟨h, fun _ => rfl, fun hgt => absurd h (by omega)⟩
  · rw [if_neg h]
    exact ⟨rfl, fun h0 => absurd h0 h, fun _ => rfl⟩

theorem reveal_ends_unhidden_witness :
    (reveal ⟨"hider", true, 2, 1⟩).1 = 0 ∧
    reveal ⟨"hider", true, 2, 1⟩ =
      (0, [HEvent.msgTo "hider" "You are no longer hiding.",
           HEvent.roomMsg ("hider" ++ " has stepped out of the shadows.") "hider"]) :=
  ⟨(reveal_ends_unhidden ⟨"hider", true, 2, 1⟩).1,
   (reveal_ends_unhidden ⟨"hider", true, 2, 1⟩).2.2 (by decide)⟩

/-- C9 counterexample: the category roll is `randint(0, 100)`, inclusive of
100, and a roll of 100 runs the reveal-people branch (here discovering a
hidden actor), although 100 does not lie in the half-open interval from 40 to
100 the claim gives for that branch. -/
theorem search_category_roll_100 :
    search [⟨"s", true, 0, 1⟩, ⟨"h", true, 1, 1⟩] ⟨"s", true, 0, 1⟩ 100
        (fun _ => 1) (fun _ => 15) =
      Except.ok ⟨[⟨"s", true, 0, 1⟩, ⟨"h", true, 0, 1⟩],
        [looking_msg ⟨"s", true, 0, 1⟩,
         HEvent.msgTo "s" "You've found h hiding in the shadows!",
         HEvent.msgTo "h" "You've been discovered by s",
         HEvent.roomMsg "s has found h hiding in the shadows!" "s"],
        true⟩ ∧
    ¬(40 ≤ 100 ∧ 100 < 100) := by
  exact ⟨rfl, by omega⟩

/-- C9 amended: the category roll ranges over the inclusive interval 0..100;
rolls below 20 take the reveal-objects branch and rolls in 20..39 the
reveal-exits branch, both of which find nothing, change no state and message
the searcher "You haven't found anything.", and every roll from 40 up to and
including 100 runs reveal-people, after which a not-found outcome likewise
messages the searcher. -/
theorem search_branch_selection (contents : List Actor) (searcher : Actor)
    (catRoll : Nat) (picks rolls : Nat → Nat) :
    (catRoll % 101 < 20 →
      search contents searcher catRoll picks rolls =
        Except.ok ⟨contents, [looking_msg searcher, not_found_msg searcher], false⟩) ∧
    (20 ≤ catRoll % 101 → catRoll % 101 < 40 →
      search contents searcher catRoll picks rolls =
        Except.ok ⟨contents, [looking_msg searcher, not_found_msg searcher], false⟩) ∧
    (40 ≤ catRoll % 101 →
      search contents searcher catRoll picks rolls =
        match reveal_people contents searcher picks rolls with
        | Except.error e => Except.error e
        | Except.ok (c, evs, found) =>
          Except.ok ⟨c,
            looking_msg searcher :: evs ++
              (if found then [] else [not_found_msg searcher]),
            found⟩) ∧
    catRoll % 101 ≤ 100 := by
  refine ⟨?_, ?_, ?_, ?_⟩
  · intro h
    unfold search
    rw [if_pos h]
  · intro h1 h2
    unfold search
    rw [if_neg (by omega), if_pos h2]
  · intro h
    unfold search
    rw [if_neg (by omega), if_neg (by omega)]
  · have := Nat.mod_lt catRoll (show 0 < 101 by norm_num)
    omega

theorem search_branch_selection_witness :
    search [⟨"s", true, 0, 1⟩] ⟨"s", true, 0, 1⟩ 10 (fun _ => 0) (fun _ => 0) =
      Except.ok ⟨[⟨"s", true, 0, 1⟩],
        [looking_msg ⟨"s", true, 0, 1⟩, not_found_msg ⟨"s", true, 0, 1⟩], false⟩ :=
  (search_branch_selection [⟨"s", true, 0, 1⟩] ⟨"s", true, 0, 1⟩ 10
    (fun _ => 0) (fun _ => 0)).1 (by norm_num)

/-- C10: an actor with concealment level at least MAX_HIDE (15) is never the
one the reveal-people loop discovers — the discovery roll over 0..15 can never
strictly exceed their level — and any successful `search` leaves that actor,
with their concealment level, in the room contents. -/
theorem max_hide_never_revealed (contents : List Actor) (searcher : Actor)
    (catRoll : Nat) (picks rolls : Nat → Nat) (a : Actor) (r : SearchResult)
    (ha : MAX_HIDE ≤ a.ndb_hiding)
    (hs : search contents searcher catRoll picks rolls = Except.ok r) :
    (∀ fuel picked,
        rp_go searcher (contents.filter (fun x => x.isCharacter)) picks rolls fuel =
          Except.ok (some picked) → picked ≠ a) ∧
    (a ∈ contents → a ∈ r.contents) := by
  have hne : ∀ fuel picked,
      rp_go searcher (contents.filter (fun x => x.isCharacter)) picks rolls fuel =
        Except.ok (some picked) → picked ≠ a := by
    intro fuel picked hp heq
    have hlt := rp_go_some_ndb_lt searcher _ picks rolls fuel picked hp
    rw [heq] at hlt
    omega
  refine ⟨hne, fun hmem => ?_⟩
  unfold search at hs
  by_cases h20 : catRoll % 101 < 20
  · rw [if_pos h20] at hs
    simp only [Except.ok.injEq] at hs
    subst hs
    exact hmem
  · rw [if_neg h20] at hs
    by_cases h40 : catRoll % 101 < 40
    · rw [if_pos h40] at hs
      simp only [Except.ok.injEq] at hs
      subst hs
      exact hmem
    · rw [if_neg h40] at hs
      split at hs
      · simp at hs
      · rename_i c evs found heq
        simp only [Except.ok.injEq] at hs
        subst hs
        exact reveal_people_preserves contents searcher picks rolls a c evs found
          (hne 7) heq hmem

theorem max_hide_never_revealed_witness :
    (∀ fuel picked,
        rp_go ⟨"s", true, 0, 1⟩
            ([⟨"s", true, 0, 1⟩, ⟨"x", true, 15, 20⟩].filter (fun x => x.isCharacter))
            (fun _ => 1) (fun _ => 15) fuel =
          Except.ok (some picked) → picked ≠ ⟨"x", true, 15, 20⟩) ∧
    (⟨"x", true, 15, 20⟩ ∈ ([⟨"s", true, 0, 1⟩, ⟨"x", true, 15, 20⟩] : List Actor) →
      ⟨"x", true, 15, 20⟩ ∈
        (⟨[⟨"s", true, 0, 1⟩, ⟨"x", true, 15, 20⟩],
          [looking_msg ⟨"s", true, 0, 1⟩, not_found_msg ⟨"s", true, 0, 1⟩],
          false⟩ : SearchResult).contents) :=
  max_hide_never_revealed [⟨"s", true, 0, 1⟩, ⟨"x", true, 15, 20⟩] ⟨"s", true, 0, 1⟩ 100
    (fun _ => 1) (fun _ => 15) ⟨"x", true, 15, 20⟩
    ⟨[⟨"s", true, 0, 1⟩, ⟨"x", true, 15, 20⟩],
      [looking_msg ⟨"s", true, 0, 1⟩, not_found_msg ⟨"s", true, 0, 1⟩], false⟩
    (by decide) (by rfl)

end Monster
